import Mathlib

/-!
# Watchtower-AI drift-detection engine: a shallow embedding

This file embeds the window managers and the statistical drift battery of
the Watchtower-AI repository in Lean 4 and proves (or refutes) the
specification claims about them.

Conventions:
* machine floats are modelled as exact rationals (`ℚ`);
* missing values (`NaN` / `None` in pandas) are modelled as `Option ℚ`;
* database rows become fields of explicit state records, and the SQLAlchemy
  read/modify/commit sequences become pure state-transition functions;
* external-library calls that are not part of the repository (scipy's
  `ks_2samp` p-value, numpy's `log`, sklearn's `train_test_split` and
  `RandomForestClassifier`) are passed in as function parameters, with the
  properties the proofs need stated as explicit hypotheses.
-/

namespace Watchtower

attribute [local semireducible] Rat.add Rat.mul Rat.sub Rat.inv

/-! ## Window managers

`app/services/baseline_manager.py` (the anchored/extending policy),
`app/services/feature_monitoring/baseline_manager.py` (the sliding policy)
and `app/services/llm_monitoring/llm_baseline_manager.py` +
`llm_monitor_service.py` (the LLM windows).
-/

/-- A `BaselineInfo` database row (`app/database/models.py`), as read and
written by `app/services/baseline_manager.py`: independent feature and
prediction start/end pairs plus the shared progress counter
`temp_baseline_batch_size`. -/
structure BaselineInfo where
  featStart : Nat
  featEnd : Nat
  predStart : Nat
  predEnd : Nat
  temp : Nat
deriving DecidableEq

/-- The per-project state visible to `app/services/baseline_manager.py`:
the latest ingested row indices (`ProjectDataStats`), the optional
`BaselineInfo` row and the optional `MonitorInfo` row (feature monitor
start/end). -/
structure AnchoredState where
  latestFeat : Nat
  latestPred : Nat
  baseline : Option BaselineInfo
  monitor : Option (Nat × Nat)
deriving DecidableEq

/-- Python truthiness guard `latest and latest >= n` used for
`has_enough_features` / `has_enough_predictions` (a `0` row count is falsy,
so it short-circuits to `False`). -/
def hasEnough (latest n : Nat) : Bool :=
  decide (latest ≠ 0 ∧ n ≤ latest)

/-- `BaselineManager._create_monitor_info`: creates the monitor window
`[baseline_end+1, baseline_end+monitor_batch_size]` only when no monitor
row exists yet. -/
def createMonitorInfo (baselineEnd m : Nat) (monitor : Option (Nat × Nat)) :
    Option (Nat × Nat) :=
  match monitor with
  | some w => some w
  | none => some (baselineEnd + 1, baselineEnd + m)

/-- `BaselineManager._update_monitor_info`: rewrites an existing monitor
window to `[baseline_end+1, baseline_end+monitor_batch_size]`; does nothing
when no monitor row exists. -/
def updateMonitorInfo (baselineEnd m : Nat) (monitor : Option (Nat × Nat)) :
    Option (Nat × Nat) :=
  match monitor with
  | some _ => some (baselineEnd + 1, baselineEnd + m)
  | none => none

/-- `BaselineManager.create_baseline` of `app/services/baseline_manager.py`
(the anchored/extending policy), with `n` = `baseline_batch_size` and `m` =
`monitor_batch_size`.  On creation the baseline covers `[1, n]` for each
kind that has enough rows (`(0,0)` otherwise) and the monitor window is
created; on update, each kind that reached `temp + n` gets the range
`[old_end+1, temp+n]`, the progress counter advances to `temp + n`, and the
monitor window is rewritten past it. -/
def anchoredCreateBaseline (n m : Nat) (s : AnchoredState) : AnchoredState :=
  match s.baseline with
  | none =>
    if hasEnough s.latestFeat n || hasEnough s.latestPred n then
      let featS := if hasEnough s.latestFeat n then 1 else 0
      let featE := if hasEnough s.latestFeat n then n else 0
      let predS := if hasEnough s.latestPred n then 1 else 0
      let predE := if hasEnough s.latestPred n then n else 0
      { s with
        baseline := some ⟨featS, featE, predS, predE, n⟩
        monitor := createMonitorInfo n m s.monitor }
    else s
  | some b =>
    let next := b.temp + n
    if hasEnough s.latestFeat next || hasEnough s.latestPred next then
      { s with
        baseline := some
          { featStart := if hasEnough s.latestFeat next then b.featEnd + 1 else b.featStart
            featEnd := if hasEnough s.latestFeat next then next else b.featEnd
            predStart := if hasEnough s.latestPred next then b.predEnd + 1 else b.predStart
            predEnd := if hasEnough s.latestPred next then next else b.predEnd
            temp := next }
        monitor := updateMonitorInfo next m s.monitor }
    else s

/-- One observable transition of the anchored-policy manager: either the
ledger grows (ingestion appends rows and bumps `ProjectDataStats`), or
`create_baseline` runs. -/
inductive AnchoredStep (n m : Nat) : AnchoredState → AnchoredState → Prop
  | ingest (s : AnchoredState) (df dp : Nat) :
      AnchoredStep n m s
        { s with latestFeat := s.latestFeat + df, latestPred := s.latestPred + dp }
  | createBaseline (s : AnchoredState) :
      AnchoredStep n m s (anchoredCreateBaseline n m s)

/-- States of the anchored-policy manager reachable from the empty project. -/
inductive AnchoredReachable (n m : Nat) : AnchoredState → Prop
  | init : AnchoredReachable n m ⟨0, 0, none, none⟩
  | step {s t : AnchoredState} :
      AnchoredReachable n m s → AnchoredStep n m s t → AnchoredReachable n m t

/-- Inductive invariant of the anchored manager: a monitor row implies a
baseline row, the monitor start is pinned to `temp + 1`, and the feature
(and prediction) baseline ends never pass the progress counter, which is a
positive multiple of `n` divisible progress. -/
def anchoredInv (n : Nat) (s : AnchoredState) : Prop :=
  (s.monitor.isSome → s.baseline.isSome) ∧
  (∀ b : BaselineInfo, s.baseline = some b →
    b.featEnd ≤ b.temp ∧ b.predEnd ≤ b.temp ∧
    n ∣ b.temp ∧ n ∣ b.featEnd ∧ n ∣ b.predEnd) ∧
  (∀ (b : BaselineInfo) (w : Nat × Nat),
    s.baseline = some b → s.monitor = some w → w.1 = b.temp + 1)

theorem anchoredInv_init (n : Nat) : anchoredInv n ⟨0, 0, none, none⟩ := by
  refine ⟨by simp, ?_, ?_⟩ <;> intros <;> simp_all

theorem anchoredInv_preserved {n m : Nat} {s t : AnchoredState}
    (hinv : anchoredInv n s) (hstep : AnchoredStep n m s t) : anchoredInv n t := by
  obtain ⟨hmb, hb, hwm⟩ := hinv
  cases hstep with
  | ingest df dp => exact ⟨hmb, hb, hwm⟩
  | createBaseline =>
    unfold anchoredCreateBaseline
    cases hbase : s.baseline with
    | none =>
      by_cases hcond : (hasEnough s.latestFeat n || hasEnough s.latestPred n) = true
      · simp only [hbase, hcond, if_true]
        refine ⟨by simp [createMonitorInfo], ?_, ?_⟩
        · intro b hbeq
          simp only [Option.some.injEq] at hbeq
          subst hbeq
          constructor
          · by_cases h : hasEnough s.latestFeat n = true <;> simp [h]
          constructor
          · by_cases h : hasEnough s.latestPred n = true <;> simp [h]
          refine ⟨dvd_refl n, ?_, ?_⟩
          · by_cases h : hasEnough s.latestFeat n = true <;> simp [h]
          · by_cases h : hasEnough s.latestPred n = true <;> simp [h]
        · intro b w hbeq hweq
          simp only [Option.some.injEq] at hbeq
          subst hbeq
          have hmnone : s.monitor = none := by
            cases hm : s.monitor with
            | none => rfl
            | some w0 =>
              have := hmb (by simp [hm])
              simp [hbase] at this
          simp only [createMonitorInfo, hmnone, Option.some.injEq] at hweq
          simp [← hweq]
      · simp only [hbase, hcond, if_false]
        exact ⟨hmb, hb, hwm⟩
    | some b =>
      by_cases hcond :
          (hasEnough s.latestFeat (b.temp + n) || hasEnough s.latestPred (b.temp + n)) = true
      · simp only [hbase, hcond, if_true]
        obtain ⟨hfe, hpe, hdt, hdf, hdp⟩ := hb b hbase
        refine ⟨?_, ?_, ?_⟩
        · intro _
          simp
        · intro b' hb'
          simp only [Option.some.injEq] at hb'
          subst hb'
          constructor
          · by_cases h : hasEnough s.latestFeat (b.temp + n) = true <;>
              simp [h, le_trans hfe (Nat.le_add_right _ _)]
          constructor
          · by_cases h : hasEnough s.latestPred (b.temp + n) = true <;>
              simp [h, le_trans hpe (Nat.le_add_right _ _)]
          refine ⟨Dvd.dvd.add hdt (dvd_refl n), ?_, ?_⟩
          · by_cases h : hasEnough s.latestFeat (b.temp + n) = true <;>
              simp [h, hdf, Dvd.dvd.add hdt (dvd_refl n)]
          · by_cases h : hasEnough s.latestPred (b.temp + n) = true <;>
              simp [h, hdp, Dvd.dvd.add hdt (dvd_refl n)]
        · intro b' w hb' hw
          simp only [Option.some.injEq] at hb'
          subst hb'
          cases hm : s.monitor with
          | none => simp [updateMonitorInfo, hm] at hw
          | some w0 =>
            simp only [updateMonitorInfo, hm, Option.some.injEq] at hw
            simp [← hw]
      · simp only [hbase, hcond, if_false]
        exact ⟨hmb, hb, hwm⟩

theorem anchoredInv_reachable {n m : Nat} {s : AnchoredState}
    (h : AnchoredReachable n m s) : anchoredInv n s := by
  induction h with
  | init => exact anchoredInv_init n
  | step _ hstep ih => exact anchoredInv_preserved ih hstep

/-- A `FeatureBaseline` row as used by the sliding-policy manager
`app/services/feature_monitoring/baseline_manager.py`. -/
structure FeatureBaseline where
  featStart : Nat
  featEnd : Nat
  predStart : Nat
  predEnd : Nat
  temp : Nat
deriving DecidableEq

/-- Per-project state of the sliding-policy manager: latest row indices
(`FeatureStats`), optional `FeatureBaseline` row and optional
`FeatureMonitorInfo` row. -/
structure SlidingState where
  latestFeat : Nat
  latestPred : Nat
  baseline : Option FeatureBaseline
  monitor : Option (Nat × Nat)
deriving DecidableEq

/-- `BaselineManager._create_or_update_monitor` of the sliding-policy
manager: when rows exist beyond the baseline end, the monitor window is set
to the last `m` rows after the baseline
(`[max (baseline_end+1) (latest-m+1), latest]`); otherwise it is left as
is.  `latest + 1 - m` is the `Nat` truncation of Python's `latest - m + 1`;
the two agree under the outer `max` because `baselineEnd + 1 ≥ 1`. -/
def slidingMonitorUpdate (baselineEnd latest m : Nat)
    (monitor : Option (Nat × Nat)) : Option (Nat × Nat) :=
  if baselineEnd < latest then
    some (max (baselineEnd + 1) (latest + 1 - m), latest)
  else monitor

/-- `BaselineManager.create_baseline` of
`app/services/feature_monitoring/baseline_manager.py` (the sliding
policy): the baseline is (re)computed as the most recent
`baseline_batch_size`-sized block; on creation the monitor is also set; on
a slide (`latest ≥ end + n`) only the baseline row is rewritten — the
monitor row is left untouched. -/
def slidingCreateBaseline (n m : Nat) (s : SlidingState) : SlidingState :=
  if hasEnough s.latestFeat n || hasEnough s.latestPred n then
    let featS := if hasEnough s.latestFeat n then s.latestFeat - n + 1 else 0
    let featE := if hasEnough s.latestFeat n then s.latestFeat else 0
    let predS := if hasEnough s.latestPred n then s.latestPred - n + 1 else 0
    let predE := if hasEnough s.latestPred n then s.latestPred else 0
    match s.baseline with
    | none =>
      { s with
        baseline := some ⟨featS, featE, predS, predE, n⟩
        monitor := slidingMonitorUpdate featE s.latestFeat m s.monitor }
    | some b =>
      if b.featEnd + n ≤ s.latestFeat then
        { s with
          baseline := some
            { featStart := featS
              featEnd := featE
              predStart := if hasEnough s.latestPred n then predS else b.predStart
              predEnd := if hasEnough s.latestPred n then predE else b.predEnd
              temp := b.temp } }
      else s
  else s

/-- `BaselineManager.update_monitor_window` of the sliding-policy manager:
slides the monitor window forward (via `_create_or_update_monitor`) when a
baseline exists. -/
def slidingUpdateMonitorWindow (m : Nat) (s : SlidingState) : SlidingState :=
  match s.baseline with
  | none => s
  | some b => { s with monitor := slidingMonitorUpdate b.featEnd s.latestFeat m s.monitor }

/-- One observable transition of the sliding-policy manager: ingestion
appends rows, then `create_baseline` and `update_monitor_window` run (as in
`feature_monitoring/ingestion_service.py`). -/
inductive SlidingStep (n m : Nat) : SlidingState → SlidingState → Prop
  | ingest (s : SlidingState) (df dp : Nat) :
      SlidingStep n m s
        { s with latestFeat := s.latestFeat + df, latestPred := s.latestPred + dp }
  | createBaseline (s : SlidingState) :
      SlidingStep n m s (slidingCreateBaseline n m s)
  | updateMonitorWindow (s : SlidingState) :
      SlidingStep n m s (slidingUpdateMonitorWindow m s)

/-- States of the sliding-policy manager reachable from the empty project. -/
inductive SlidingReachable (n m : Nat) : SlidingState → Prop
  | init : SlidingReachable n m ⟨0, 0, none, none⟩
  | step {s t : SlidingState} :
      SlidingReachable n m s → SlidingStep n m s t → SlidingReachable n m t

/-- Per-project state of the LLM windows
(`app/services/llm_monitoring/llm_baseline_manager.py` and
`llm_monitor_service.py`): latest interaction row id, the optional
`LLMBaseline` row range and the optional `LLMMonitorInfo` row range.
(The token averages stored alongside the ranges play no role in the window
geometry and are modelled separately with the drift detector.) -/
structure LLMWindowState where
  latest : Nat
  baseline : Option (Nat × Nat)
  monitor : Option (Nat × Nat)
deriving DecidableEq

/-- `LLMBaselineManager.create_baseline`: with at least one logged row,
creates the baseline `[1, n]` once `latest ≥ n` (also creating the monitor
window `[n+1, n+m]`), and extends an existing baseline end by exactly `n`
once `latest ≥ end + n`, rewriting the monitor window past the new end.
The baseline start row is never modified after creation. -/
def llmCreateBaseline (n m : Nat) (s : LLMWindowState) : LLMWindowState :=
  if s.latest = 0 then s
  else
    match s.baseline with
    | none =>
      if n ≤ s.latest then
        { s with
          baseline := some (1, n)
          monitor := createMonitorInfo n m s.monitor }
      else s
    | some (bs, be) =>
      if be + n ≤ s.latest then
        { s with
          baseline := some (bs, be + n)
          monitor := updateMonitorInfo (be + n) m s.monitor }
      else s

/-- `LLMMonitorService._update_monitor_window`, guarded by
`_check_drift_trigger`'s window-complete test (`latest ≥ monitor_end`):
the monitor window jumps to the next non-overlapping batch
`[old_end+1, old_end+m]`. -/
def llmAdvanceMonitor (m : Nat) (s : LLMWindowState) : LLMWindowState :=
  match s.monitor with
  | none => s
  | some (_, me) =>
    if me ≤ s.latest then { s with monitor := some (me + 1, me + m) } else s

/-- One observable transition of the LLM window manager: `log_interaction`
appends one row (row ids are assigned consecutively by `_get_next_row_id`),
then `create_baseline` and the drift trigger's window advance run. -/
inductive LLMStep (n m : Nat) : LLMWindowState → LLMWindowState → Prop
  | log (s : LLMWindowState) :
      LLMStep n m s { s with latest := s.latest + 1 }
  | createBaseline (s : LLMWindowState) :
      LLMStep n m s (llmCreateBaseline n m s)
  | advanceMonitor (s : LLMWindowState) :
      LLMStep n m s (llmAdvanceMonitor m s)

/-- States of the LLM window manager reachable from the empty project. -/
inductive LLMReachable (n m : Nat) : LLMWindowState → Prop
  | init : LLMReachable n m ⟨0, none, none⟩
  | step {s t : LLMWindowState} :
      LLMReachable n m s → LLMStep n m s t → LLMReachable n m t

/-- Inductive invariant of the LLM window manager: a monitor row implies a
baseline row, the monitor starts strictly after the baseline end, and the
monitor start never exceeds its end by more than one. -/
def llmInv (s : LLMWindowState) : Prop :=
  (s.monitor.isSome → s.baseline.isSome) ∧
  (∀ (b w : Nat × Nat), s.baseline = some b → s.monitor = some w →
    b.2 < w.1 ∧ w.1 ≤ w.2 + 1)

theorem llmInv_preserved {n m : Nat} {s t : LLMWindowState}
    (hinv : llmInv s) (hstep : LLMStep n m s t) : llmInv t := by
  obtain ⟨hmb, hbw⟩ := hinv
  cases hstep with
  | log => exact ⟨hmb, hbw⟩
  | createBaseline =>
    unfold llmCreateBaseline
    by_cases hz : s.latest = 0
    · simp only [hz, if_true]
      exact ⟨hmb, hbw⟩
    · simp only [hz, if_false]
      cases hbase : s.baseline with
      | none =>
        by_cases hle : n ≤ s.latest
        · simp only [hle, if_true]
          have hmnone : s.monitor = none := by
            cases hm : s.monitor with
            | none => rfl
            | some w0 =>
              have := hmb (by simp [hm])
              simp [hbase] at this
          refine ⟨by simp [createMonitorInfo, hmnone], ?_⟩
          intro b w hbeq hweq
          simp only [createMonitorInfo, hmnone, Option.some.injEq] at hbeq hweq
          subst hbeq
          subst hweq
          simp
        · simp only [hle, if_false]
          exact ⟨hmb, hbw⟩
      | some p =>
        obtain ⟨bs, be⟩ := p
        by_cases hle : be + n ≤ s.latest
        · simp only [hle, if_true]
          refine ⟨by simp, ?_⟩
          intro b w hbeq hweq
          simp only [Option.some.injEq] at hbeq
          subst hbeq
          cases hm : s.monitor with
          | none => simp [updateMonitorInfo, hm] at hweq
          | some w0 =>
            simp only [updateMonitorInfo, hm, Option.some.injEq] at hweq
            subst hweq
            simp
        · simp only [hle, if_false]
          exact ⟨hmb, hbw⟩
  | advanceMonitor =>
    unfold llmAdvanceMonitor
    cases hm : s.monitor with
    | none => exact ⟨hmb, by intro b w hbeq hweq; exact hbw b w hbeq (hm ▸ hweq)⟩
    | some p =>
      obtain ⟨ms, me⟩ := p
      by_cases hle : me ≤ s.latest
      · simp only [hle, if_true]
        refine ⟨by intro _; exact hmb (by simp [hm]), ?_⟩
        intro b w hbeq hweq
        simp only [Option.some.injEq] at hweq
        subst hweq
        have := hbw b (ms, me) hbeq hm
        simp at this ⊢
        omega
      · simp only [hle, if_false]
        exact ⟨hmb, hbw⟩

theorem llmInv_reachable {n m : Nat} {s : LLMWindowState}
    (h : LLMReachable n m s) : llmInv s := by
  induction h with
  | init => exact ⟨by simp, by intro b w hb hw; simp at hb⟩
  | step _ hstep ih => exact llmInv_preserved ih hstep

/-- C1, counterexample.  Under the sliding-baseline policy
(`feature_monitoring/baseline_manager.py`) with `baseline_batch_size = 4`
and `monitor_batch_size = 2`, the trace
ingest 4 rows → `create_baseline` (baseline `[1,4]`) → ingest 2 →
`update_monitor_window` (monitor `[5,6]`) → ingest 2 → `create_baseline`
(baseline slides to `[5,8]`, monitor left at `[5,6]`) reaches a state in
which both ranges exist and the monitor start row 5 is NOT strictly
greater than the baseline end row 8; a further `update_monitor_window`
call leaves this overlapping state unchanged (`latest = baseline_end`),
so the violation persists. -/
theorem C1_counterexample :
    SlidingReachable 4 2 ⟨8, 0, some ⟨5, 8, 0, 0, 4⟩, some (5, 6)⟩ ∧
    ¬ (8 < 5) ∧
    slidingUpdateMonitorWindow 2 ⟨8, 0, some ⟨5, 8, 0, 0, 4⟩, some (5, 6)⟩ =
      ⟨8, 0, some ⟨5, 8, 0, 0, 4⟩, some (5, 6)⟩ := by
  refine ⟨?_, by omega, by decide⟩
  have h0 : SlidingReachable 4 2 ⟨0, 0, none, none⟩ := SlidingReachable.init
  have h1 : SlidingReachable 4 2 ⟨4, 0, none, none⟩ :=
    SlidingReachable.step h0 (SlidingStep.ingest ⟨0, 0, none, none⟩ 4 0)
  have e2 : slidingCreateBaseline 4 2 ⟨4, 0, none, none⟩ =
      ⟨4, 0, some ⟨1, 4, 0, 0, 4⟩, none⟩ := by decide
  have h2 : SlidingReachable 4 2 ⟨4, 0, some ⟨1, 4, 0, 0, 4⟩, none⟩ :=
    SlidingReachable.step h1 (e2 ▸ SlidingStep.createBaseline ⟨4, 0, none, none⟩)
  have h3 : SlidingReachable 4 2 ⟨6, 0, some ⟨1, 4, 0, 0, 4⟩, none⟩ :=
    SlidingReachable.step h2 (SlidingStep.ingest ⟨4, 0, some ⟨1, 4, 0, 0, 4⟩, none⟩ 2 0)
  have e4 : slidingUpdateMonitorWindow 2 ⟨6, 0, some ⟨1, 4, 0, 0, 4⟩, none⟩ =
      ⟨6, 0, some ⟨1, 4, 0, 0, 4⟩, some (5, 6)⟩ := by decide
  have h4 : SlidingReachable 4 2 ⟨6, 0, some ⟨1, 4, 0, 0, 4⟩, some (5, 6)⟩ :=
    SlidingReachable.step h3
      (e4 ▸ SlidingStep.updateMonitorWindow ⟨6, 0, some ⟨1, 4, 0, 0, 4⟩, none⟩)
  have h5 : SlidingReachable 4 2 ⟨8, 0, some ⟨1, 4, 0, 0, 4⟩, some (5, 6)⟩ :=
    SlidingReachable.step h4
      (SlidingStep.ingest ⟨6, 0, some ⟨1, 4, 0, 0, 4⟩, some (5, 6)⟩ 2 0)
  have e6 : slidingCreateBaseline 4 2 ⟨8, 0, some ⟨1, 4, 0, 0, 4⟩, some (5, 6)⟩ =
      ⟨8, 0, some ⟨5, 8, 0, 0, 4⟩, some (5, 6)⟩ := by decide
  exact SlidingReachable.step h5
    (e6 ▸ SlidingStep.createBaseline ⟨8, 0, some ⟨1, 4, 0, 0, 4⟩, some (5, 6)⟩)

/-- C1, amended.  `monitor_range.start_row > baseline_range.end_row`
whenever both exist does hold in every reachable state of the
anchored-policy manager (`app/services/baseline_manager.py`, feature
windows) and of the LLM window manager — but not of the sliding-policy
manager, where the invariant can be violated immediately after the
baseline slides forward while the monitor window is stale
(see the counterexample). -/
theorem C1_monitor_disjoint_amended (n m : Nat) :
    (∀ s : AnchoredState, AnchoredReachable n m s →
      ∀ (b : BaselineInfo) (w : Nat × Nat),
        s.baseline = some b → s.monitor = some w → b.featEnd < w.1) ∧
    (∀ s : LLMWindowState, LLMReachable n m s →
      ∀ (b w : Nat × Nat),
        s.baseline = some b → s.monitor = some w → b.2 < w.1) := by
  constructor
  · intro s hs b w hb hw
    obtain ⟨_, hbinv, hwm⟩ := anchoredInv_reachable hs
    have h1 := (hbinv b hb).1
    have h2 := hwm b w hb hw
    omega
  · intro s hs b w hb hw
    exact ((llmInv_reachable hs).2 b w hb hw).1

/-- C1, witness: the amended invariant applied to the concrete anchored
state reached by ingesting 4 feature rows and creating the baseline with
`baseline_batch_size = 4`, `monitor_batch_size = 2` (baseline `[1,4]`,
monitor `[5,6]`). -/
theorem C1_monitor_disjoint_amended_witness : (4 : Nat) < 5 := by
  have h0 : AnchoredReachable 4 2 ⟨0, 0, none, none⟩ := AnchoredReachable.init
  have h1 : AnchoredReachable 4 2 ⟨4, 0, none, none⟩ :=
    AnchoredReachable.step h0 (AnchoredStep.ingest ⟨0, 0, none, none⟩ 4 0)
  have e2 : anchoredCreateBaseline 4 2 ⟨4, 0, none, none⟩ =
      ⟨4, 0, some ⟨1, 4, 0, 0, 4⟩, some (5, 6)⟩ := by decide
  have h2 : AnchoredReachable 4 2 ⟨4, 0, some ⟨1, 4, 0, 0, 4⟩, some (5, 6)⟩ :=
    AnchoredReachable.step h1 (e2 ▸ AnchoredStep.createBaseline ⟨4, 0, none, none⟩)
  exact (C1_monitor_disjoint_amended 4 2).1 _ h2 ⟨1, 4, 0, 0, 4⟩ (5, 6) rfl rfl

/-- C2, counterexample.  Under `app/services/baseline_manager.py` with
`baseline_batch_size = 4`, `monitor_batch_size = 2`: ingest 4 feature rows
and create the baseline (`[1,4]`), ingest 4 more and run `create_baseline`
again — the baseline becomes `[5,8]`: its start row is 5, not 1, refuting
"the start row stays 1" (the update moves the window forward instead of
anchoring it). -/
theorem C2_counterexample :
    AnchoredReachable 4 2 ⟨8, 0, some ⟨5, 8, 0, 0, 8⟩, some (9, 10)⟩ ∧
    (5 : Nat) ≠ 1 := by
  refine ⟨?_, by omega⟩
  have h0 : AnchoredReachable 4 2 ⟨0, 0, none, none⟩ := AnchoredReachable.init
  have h1 : AnchoredReachable 4 2 ⟨4, 0, none, none⟩ :=
    AnchoredReachable.step h0 (AnchoredStep.ingest ⟨0, 0, none, none⟩ 4 0)
  have e2 : anchoredCreateBaseline 4 2 ⟨4, 0, none, none⟩ =
      ⟨4, 0, some ⟨1, 4, 0, 0, 4⟩, some (5, 6)⟩ := by decide
  have h2 : AnchoredReachable 4 2 ⟨4, 0, some ⟨1, 4, 0, 0, 4⟩, some (5, 6)⟩ :=
    AnchoredReachable.step h1 (e2 ▸ AnchoredStep.createBaseline ⟨4, 0, none, none⟩)
  have h3 : AnchoredReachable 4 2 ⟨8, 0, some ⟨1, 4, 0, 0, 4⟩, some (5, 6)⟩ :=
    AnchoredReachable.step h2
      (AnchoredStep.ingest ⟨4, 0, some ⟨1, 4, 0, 0, 4⟩, some (5, 6)⟩ 4 0)
  have e4 : anchoredCreateBaseline 4 2 ⟨8, 0, some ⟨1, 4, 0, 0, 4⟩, some (5, 6)⟩ =
      ⟨8, 0, some ⟨5, 8, 0, 0, 8⟩, some (9, 10)⟩ := by decide
  exact AnchoredReachable.step h3
    (e4 ▸ AnchoredStep.createBaseline ⟨8, 0, some ⟨1, 4, 0, 0, 4⟩, some (5, 6)⟩)

/-- C2, amended.  For the manager of `app/services/baseline_manager.py`
with positive `baseline_batch_size = n`: on creation the feature baseline
is `[1, n]` (or the `(0,0)` placeholder when only predictions had enough
rows); on every later `create_baseline` run the feature `end_row` never
decreases and any change adds a positive multiple of `n` (exactly `n`
whenever the feature side has kept pace with the shared progress counter
`temp_baseline_batch_size`); a feature update fires exactly when the
latest feature row index reaches `temp + n`, and it moves the feature
window to `[old_end + 1, temp + n]` — the start row does NOT stay 1. -/
theorem C2_anchored_baseline_amended (n m : Nat) (hn : 0 < n)
    (s : AnchoredState) (hreach : AnchoredReachable n m s) :
    (s.baseline = none → ∀ b' : BaselineInfo,
      (anchoredCreateBaseline n m s).baseline = some b' →
      (b'.featStart = 1 ∧ b'.featEnd = n) ∨ (b'.featStart = 0 ∧ b'.featEnd = 0)) ∧
    (∀ b b' : BaselineInfo, s.baseline = some b →
      (anchoredCreateBaseline n m s).baseline = some b' →
      b.featEnd ≤ b'.featEnd ∧
      (∃ k : Nat, b'.featEnd = b.featEnd + k * n) ∧
      (b'.featEnd ≠ b.featEnd ↔
        (hasEnough s.latestFeat (b.temp + n) = true ∧
          b'.featEnd = b.temp + n ∧ b'.featStart = b.featEnd + 1))) := by
  obtain ⟨_, hbinv, _⟩ := anchoredInv_reachable hreach
  constructor
  · intro hnone b' hb'
    unfold anchoredCreateBaseline at hb'
    rw [hnone] at hb'
    by_cases hcond : (hasEnough s.latestFeat n || hasEnough s.latestPred n) = true
    · simp only [hcond, if_true, Option.some.injEq] at hb'
      subst hb'
      by_cases hf : hasEnough s.latestFeat n = true
      · left
        simp [hf]
      · right
        simp [hf]
    · rw [Bool.not_eq_true] at hcond
      rw [hcond] at hb'
      simp [hnone] at hb'
  · intro b b' hb hb'
    obtain ⟨hfe, _, hdt, hdf, _⟩ := hbinv b hb
    unfold anchoredCreateBaseline at hb'
    rw [hb] at hb'
    by_cases hcond :
        (hasEnough s.latestFeat (b.temp + n) || hasEnough s.latestPred (b.temp + n)) = true
    · simp only [hcond, if_true, Option.some.injEq] at hb'
      by_cases hf : hasEnough s.latestFeat (b.temp + n) = true
      · simp only [hf, if_true] at hb'
        subst hb'
        refine ⟨by show b.featEnd ≤ b.temp + n; omega, ?_, ?_⟩
        · obtain ⟨p, hp⟩ := hdt
          obtain ⟨q, hq⟩ := hdf
          refine ⟨p + 1 - q, ?_⟩
          have hqp : q ≤ p :=
            Nat.le_of_mul_le_mul_left (by rw [← hp, ← hq]; exact hfe) hn
          show b.temp + n = b.featEnd + (p + 1 - q) * n
          have hsub : (p + 1 - q) * n = (p + 1) * n - q * n := by
            rw [Nat.sub_mul]
          have hle : q * n ≤ (p + 1) * n := Nat.mul_le_mul_right n (by omega)
          have hp' : (p + 1) * n = b.temp + n := by rw [hp]; ring
          have hq' : q * n = b.featEnd := by rw [hq, Nat.mul_comm]
          omega
        · constructor
          · intro _
            exact ⟨hf, rfl, rfl⟩
          · intro _
            show b.temp + n ≠ b.featEnd
            omega
      · simp only [hf, if_false] at hb'
        subst hb'
        refine ⟨le_refl _, ⟨0, by simp⟩, ?_⟩
        constructor
        · intro h
          exact absurd rfl h
        · rintro ⟨hfeat, -, -⟩
          exact absurd hfeat hf
    · rw [Bool.not_eq_true] at hcond
      simp only [hcond, Bool.false_eq_true, if_false] at hb'
      rw [hb] at hb'
      simp only [Option.some.injEq] at hb'
      subst hb'
      refine ⟨le_refl _, ⟨0, by simp⟩, ?_⟩
      constructor
      · intro h
        exact absurd rfl h
      · rintro ⟨hfeat, -, -⟩
        rw [hfeat] at hcond
        simp at hcond

/-- C2, witness: the amended theorem applied to the concrete reachable
state with baseline `[5,8]` (`n = 4`, `m = 2`); its update branch fires at
`latest = 12 = temp + n` and moves the window to `[9, 12]`. -/
theorem C2_anchored_baseline_amended_witness :
    (8 : Nat) ≤ 12 ∧ (∃ k : Nat, (12 : Nat) = 8 + k * 4) := by
  have h0 : AnchoredReachable 4 2 ⟨0, 0, none, none⟩ := AnchoredReachable.init
  have h1 : AnchoredReachable 4 2 ⟨4, 0, none, none⟩ :=
    AnchoredReachable.step h0 (AnchoredStep.ingest ⟨0, 0, none, none⟩ 4 0)
  have e2 : anchoredCreateBaseline 4 2 ⟨4, 0, none, none⟩ =
      ⟨4, 0, some ⟨1, 4, 0, 0, 4⟩, some (5, 6)⟩ := by decide
  have h2 : AnchoredReachable 4 2 ⟨4, 0, some ⟨1, 4, 0, 0, 4⟩, some (5, 6)⟩ :=
    AnchoredReachable.step h1 (e2 ▸ AnchoredStep.createBaseline ⟨4, 0, none, none⟩)
  have h3 : AnchoredReachable 4 2 ⟨8, 0, some ⟨1, 4, 0, 0, 4⟩, some (5, 6)⟩ :=
    AnchoredReachable.step h2
      (AnchoredStep.ingest ⟨4, 0, some ⟨1, 4, 0, 0, 4⟩, some (5, 6)⟩ 4 0)
  have e4 : anchoredCreateBaseline 4 2 ⟨8, 0, some ⟨1, 4, 0, 0, 4⟩, some (5, 6)⟩ =
      ⟨8, 0, some ⟨5, 8, 0, 0, 8⟩, some (9, 10)⟩ := by decide
  have h4 : AnchoredReachable 4 2 ⟨8, 0, some ⟨5, 8, 0, 0, 8⟩, some (9, 10)⟩ :=
    AnchoredReachable.step h3
      (e4 ▸ AnchoredStep.createBaseline ⟨8, 0, some ⟨1, 4, 0, 0, 4⟩, some (5, 6)⟩)
  have h5 : AnchoredReachable 4 2 ⟨12, 0, some ⟨5, 8, 0, 0, 8⟩, some (9, 10)⟩ :=
    AnchoredReachable.step h4
      (AnchoredStep.ingest ⟨8, 0, some ⟨5, 8, 0, 0, 8⟩, some (9, 10)⟩ 4 0)
  have h := (C2_anchored_baseline_amended 4 2 (by omega) _ h5).2
    ⟨5, 8, 0, 0, 8⟩ ⟨9, 12, 0, 0, 12⟩ rfl (by decide)
  exact ⟨h.1, h.2.1⟩

/-! ## Statistical drift-test battery

`app/services/feature_monitoring/data_drift.py`
(`InputDataDriftMonitor`) and the shared numeric helpers.  A pandas
column is a `List (Option ℚ)`; `none` models a missing value
(`NaN`/`None`), and `dropna` removes them.  Floats are idealised as exact
rationals. -/

/-- `series.dropna()`. -/
def dropna (xs : List (Option ℚ)) : List ℚ :=
  xs.filterMap id

/-- `series.mean()` on a clean series (sum divided by length; callers
guard against the empty series). -/
def seriesMean (xs : List ℚ) : ℚ :=
  xs.sum / xs.length

/-- Insert into a sorted list, keeping ascending order. -/
def insertSorted (x : ℚ) : List ℚ → List ℚ
  | [] => [x]
  | y :: ys => if x ≤ y then x :: y :: ys else y :: insertSorted x ys

/-- Ascending sort (insertion sort — structurally recursive so that proofs
can evaluate it), modelling the sorts performed inside pandas/numpy
median and quantile routines. -/
def sortAsc (xs : List ℚ) : List ℚ :=
  xs.foldr insertSorted []

/-- `series.median()` on a clean series: sort ascending, take the middle
element, or the average of the two middle elements for even length. -/
def seriesMedian (xs : List ℚ) : ℚ :=
  let ys := sortAsc xs
  let k := ys.length
  if k = 0 then 0
  else if k % 2 = 1 then ys.getD (k / 2) 0
  else (ys.getD (k / 2 - 1) 0 + ys.getD (k / 2) 0) / 2

/-- `series.var()` with the pandas default `ddof=1` (the feature path);
`none` models the `NaN` produced for fewer than two samples. -/
def seriesVar1 (xs : List ℚ) : Option ℚ :=
  if xs.length < 2 then none
  else
    let mu := seriesMean xs
    some ((xs.map (fun x => (x - mu) ^ 2)).sum / (xs.length - 1 : ℚ))

/-- `series.var(ddof=0)` (the prediction path); `none` models the `NaN`
produced for an empty series. -/
def seriesVar0 (xs : List ℚ) : Option ℚ :=
  if xs.length = 0 then none
  else
    let mu := seriesMean xs
    some ((xs.map (fun x => (x - mu) ^ 2)).sum / (xs.length : ℚ))

/-- `InputDataDriftMonitor._relative_change`: `None` when the baseline
value is 0 or either argument is missing, else `|curr - base| / |base|`.
The function is total — this is the shallow-embedding form of "never
raises". -/
def relativeChange (curr base : Option ℚ) : Option ℚ :=
  match curr, base with
  | some c, some b => if b = 0 then none else some (|c - b| / |b|)
  | _, _ => none

/-- `PredictionOutputMonitor._relative_change` (the static prediction-side
variant, taking plain values). -/
def relativeChangePred (curr base : ℚ) : Option ℚ :=
  if base = 0 then none else some (|curr - base| / |base|)

/-- Linear-interpolation empirical quantile of a list at fraction
`q ∈ [0,1]`, as computed by `numpy.percentile` / `pandas.quantile`
(`pos = (len-1)·q`, interpolate between the two neighbouring order
statistics).  Returns 0 for the empty list (callers guard). -/
def quantileAt (xs : List ℚ) (q : ℚ) : ℚ :=
  let a := sortAsc xs
  let k := a.length
  if k = 0 then 0
  else
    let pos : ℚ := (k - 1 : ℚ) * q
    let i : Nat := pos.floor.toNat
    if i + 1 < k then a.getD i 0 + (pos - i) * (a.getD (i + 1) 0 - a.getD i 0)
    else a.getD (k - 1) 0

/-- Number of data points falling in one `numpy.histogram` bucket;
`none` bounds stand for the `±inf` outer edges
(`breakpoints[0] = -inf`, `breakpoints[-1] = inf`). -/
def binCount (lo hi : Option ℚ) (data : List ℚ) : Nat :=
  (data.filter (fun x =>
    (match lo with | none => true | some l => decide (l ≤ x)) &&
    (match hi with | none => true | some h => decide (x < h)))).length

/-- `numpy.histogram(data, bins=breakpoints)` bucket counts, with the
outer edges of the breakpoint list `qs` (length `bins+1`) replaced by
`±inf` as in `_compute_psi`. -/
def psiCounts (qs : List ℚ) (data : List ℚ) : List Nat :=
  let k := qs.length - 1
  (List.range k).map (fun i =>
    binCount (if i = 0 then none else some (qs.getD i 0))
             (if i = k - 1 then none else some (qs.getD (i + 1) 0)) data)

/-- The clipped per-bucket proportion pairs of `_compute_psi`: breakpoints
are the baseline's empirical quantiles at `j/bins` for `j = 0..bins`
(`np.percentile(base, np.linspace(0, 100, bins+1))`), both histograms are
normalised by their sample size, and every proportion is floored at `1e-6`
(`np.clip(counts, 1e-6, None)`). -/
def psiProportions (bins : Nat) (base curr : List ℚ) : List (ℚ × ℚ) :=
  let qs := (List.range (bins + 1)).map (fun j => quantileAt base ((j : ℚ) / (bins : ℚ)))
  let bc := psiCounts qs base
  let cc := psiCounts qs curr
  (bc.zip cc).map (fun p =>
    (max (1 / 1000000) ((p.1 : ℚ) / (base.length : ℚ)),
     max (1 / 1000000) ((p.2 : ℚ) / (curr.length : ℚ))))

/-- The PSI sum `Σ (base_p − curr_p) · log(base_p / curr_p)` over the
clipped bucket proportions.  `numpy.log` is not part of the repository, so
the logarithm is a parameter `lg`; the proofs assume only the sign
behaviour of a logarithm (`lg r ≥ 0` for `r ≥ 1`, `lg r ≤ 0` for
`r ≤ 1`). -/
def psiValue (lg : ℚ → ℚ) (props : List (ℚ × ℚ)) : ℚ :=
  (props.map (fun p => (p.1 - p.2) * lg (p.1 / p.2))).sum

/-- `PredictionOutputMonitor._compute_psi`: breakpoints from the baseline,
normalised histograms, clipping, and the log-weighted sum (the prediction
variant receives already-cleaned series and has no empty-series guard). -/
def computePsi (lg : ℚ → ℚ) (bins : Nat) (base curr : List ℚ) : ℚ :=
  psiValue lg (psiProportions bins base curr)

/-- `InputDataDriftMonitor._compute_psi`: drops missing values, returns
`none` for an empty side (the source's `(None, "unknown")`), otherwise the
PSI value together with its severity tier
(`low` below `psi_thresholds[0]`, `medium` below `psi_thresholds[1]`,
else `high`). -/
def computePsiFeature (lg : ℚ → ℚ) (bins : Nat) (psiLow psiHigh : ℚ)
    (base curr : List (Option ℚ)) : Option (ℚ × String) :=
  let b := dropna base
  let c := dropna curr
  if b.length = 0 ∨ c.length = 0 then none
  else
    let psi := computePsi lg bins b c
    some (psi, if psiHigh ≤ psi then "high" else if psiLow ≤ psi then "medium" else "low")

/-- Empirical CDF value `#{y ∈ xs | y ≤ x} / |xs|`. -/
def ecdf (xs : List ℚ) (x : ℚ) : ℚ :=
  ((xs.filter (fun y => decide (y ≤ x))).length : ℚ) / (xs.length : ℚ)

/-- The two-sample Kolmogorov–Smirnov statistic
`sup_x |F₁(x) − F₂(x)|` (the supremum is attained at a sample point), as
computed by `scipy.stats.ks_2samp`.  The p-value attached to it is not
reproducible in exact arithmetic and is a parameter of the battery. -/
def ksStatistic (xs ys : List ℚ) : ℚ :=
  ((xs ++ ys).map (fun x => |ecdf xs x - ecdf ys x|)).foldr max 0

/-- One recorded relative-change test (`value`, `threshold`,
`drift_detected`) of `drift_tests`. -/
structure TestEntry where
  value : ℚ
  threshold : ℚ
  driftDetected : Bool
deriving DecidableEq

/-- The recorded KS test of `drift_tests` (`statistic`, `p_value`,
`threshold`, `drift_detected`). -/
structure KSEntry where
  statistic : ℚ
  pValue : ℚ
  threshold : ℚ
  driftDetected : Bool
deriving DecidableEq

/-- The per-column `tests` dictionary built by
`InputDataDriftMonitor._run_tests_for_column` (each entry present only
when its test ran). -/
structure ColumnTests where
  meanShift : Option TestEntry
  medianShift : Option TestEntry
  varianceShift : Option TestEntry
  ksTest : Option KSEntry
  psi : Option (ℚ × String)
deriving DecidableEq

/-- The thresholds of `InputDataDriftMonitor` (loaded from
`FeatureDriftConfig` or the defaults of `app/constants.py`). -/
structure DriftConfig where
  meanThreshold : ℚ
  medianThreshold : ℚ
  varianceThreshold : ℚ
  ksPvalueThreshold : ℚ
  psiLow : ℚ
  psiHigh : ℚ
  psiBins : Nat
  minSamples : Nat
  alertThreshold : Nat
deriving DecidableEq

/-- The default thresholds of `app/constants.py`:
mean/median 0.10, variance 0.20, KS p-value 0.05, PSI tiers (0.10, 0.25),
10 PSI bins, 50 minimum samples, 2 alert signals. -/
def defaultDriftConfig : DriftConfig :=
  ⟨1/10, 1/10, 1/5, 1/20, 1/10, 1/4, 10, 50, 2⟩

/-- A column is eligible when both sides retain at least `min_samples`
non-missing values (`_run_tests_for_column`'s gate). -/
def eligibleColumn (cfg : DriftConfig) (base curr : List (Option ℚ)) : Bool :=
  decide (cfg.minSamples ≤ (dropna base).length ∧ cfg.minSamples ≤ (dropna curr).length)

/-- `InputDataDriftMonitor._run_tests_for_column`: skip the column
entirely below `min_samples`; otherwise record mean/median/variance
relative-change tests (each skipped when the baseline side is zero, the
variance pair `none` standing for pandas' NaN below two samples), the KS
test against the p-value threshold, and the PSI tier, and count the fired
signals (mean, median, variance, KS, PSI = high).  `pv` is scipy's KS
p-value (external to the repository); its `try/except` guard cannot fire
on the non-empty samples guaranteed by a positive `min_samples`. -/
def runTestsForColumn (cfg : DriftConfig) (pv : List ℚ → List ℚ → ℚ) (lg : ℚ → ℚ)
    (base curr : List (Option ℚ)) : Option (ColumnTests × Nat) :=
  let bClean := dropna base
  let cClean := dropna curr
  if bClean.length < cfg.minSamples ∨ cClean.length < cfg.minSamples then none
  else
    let meanRC := relativeChange (some (seriesMean cClean)) (some (seriesMean bClean))
    let t1 : Option TestEntry :=
      meanRC.map (fun v => ⟨v, cfg.meanThreshold, decide (cfg.meanThreshold < v)⟩)
    let a1 : Nat := match meanRC with
      | some v => if cfg.meanThreshold < v then 1 else 0
      | none => 0
    let medRC := relativeChange (some (seriesMedian cClean)) (some (seriesMedian bClean))
    let t2 : Option TestEntry :=
      medRC.map (fun v => ⟨v, cfg.medianThreshold, decide (cfg.medianThreshold < v)⟩)
    let a2 : Nat := match medRC with
      | some v => if cfg.medianThreshold < v then 1 else 0
      | none => 0
    let varRC := relativeChange (seriesVar1 cClean) (seriesVar1 bClean)
    let t3 : Option TestEntry :=
      varRC.map (fun v => ⟨v, cfg.varianceThreshold, decide (cfg.varianceThreshold < v)⟩)
    let a3 : Nat := match varRC with
      | some v => if cfg.varianceThreshold < v then 1 else 0
      | none => 0
    let stat := ksStatistic bClean cClean
    let p := pv bClean cClean
    let tKS : Option KSEntry :=
      some ⟨stat, p, cfg.ksPvalueThreshold, decide (p < cfg.ksPvalueThreshold)⟩
    let aKS : Nat := if p < cfg.ksPvalueThreshold then 1 else 0
    let psiRes := computePsiFeature lg cfg.psiBins cfg.psiLow cfg.psiHigh
      (bClean.map some) (cClean.map some)
    let aPSI : Nat := match psiRes with
      | some pr => if pr.2 = "high" then 1 else 0
      | none => 0
    some (⟨t1, t2, t3, tKS, psiRes⟩, a1 + a2 + a3 + aKS + aPSI)

/-- The aggregate snapshot of `InputDataDriftMonitor.run`
(`drift_tests`, `alerts`, `overall_drift`, `drift_score`). -/
structure DriftSnapshot where
  driftTests : List (String × ColumnTests)
  alerts : List String
  overallDrift : Bool
  driftScore : ℚ
deriving DecidableEq

/-- The body of `run`'s per-column loop: an eligible column appends its
tests to `drift_tests`, and to `alerts` when its signal count reaches
`alert_threshold`. -/
def driftFoldStep (cfg : DriftConfig) (pv : List ℚ → List ℚ → ℚ) (lg : ℚ → ℚ)
    (acc : List (String × ColumnTests) × List String)
    (col : String × List (Option ℚ) × List (Option ℚ)) :
    List (String × ColumnTests) × List String :=
  match runTestsForColumn cfg pv lg col.2.1 col.2.2 with
  | none => acc
  | some (t, signals) =>
    (acc.1 ++ [(col.1, t)],
     if cfg.alertThreshold ≤ signals then acc.2 ++ [col.1] else acc.2)

/-- `InputDataDriftMonitor.run` over the numeric columns (each column a
name with its baseline and current series): loops the battery over
columns, sets `overall_drift` as soon as a column alerts, and sets
`drift_score` to `len(alerts) / len(numeric_cols)` — dividing by ALL
numeric columns, not only the eligible ones. -/
def runInputDrift (cfg : DriftConfig) (pv : List ℚ → List ℚ → ℚ) (lg : ℚ → ℚ)
    (cols : List (String × List (Option ℚ) × List (Option ℚ))) : DriftSnapshot :=
  let acc := cols.foldl (driftFoldStep cfg pv lg) ([], [])
  { driftTests := acc.1
    alerts := acc.2
    overallDrift := !acc.2.isEmpty
    driftScore := if cols.length ≠ 0 then (acc.2.length : ℚ) / (cols.length : ℚ) else 0 }

theorem runTestsForColumn_isSome_iff (cfg : DriftConfig) (pv : List ℚ → List ℚ → ℚ)
    (lg : ℚ → ℚ) (base curr : List (Option ℚ)) :
    (runTestsForColumn cfg pv lg base curr).isSome = eligibleColumn cfg base curr := by
  unfold runTestsForColumn eligibleColumn
  by_cases h : (dropna base).length < cfg.minSamples ∨ (dropna curr).length < cfg.minSamples
  · simp only [h, if_true, Option.isSome_none]
    have : ¬(cfg.minSamples ≤ (dropna base).length ∧ cfg.minSamples ≤ (dropna curr).length) := by
      omega
    simp [this]
  · simp only [h, if_false, Option.isSome_some]
    have : cfg.minSamples ≤ (dropna base).length ∧ cfg.minSamples ≤ (dropna curr).length := by
      omega
    simp [this]

theorem driftFold_closed_form (cfg : DriftConfig) (pv : List ℚ → List ℚ → ℚ) (lg : ℚ → ℚ)
    (cols : List (String × List (Option ℚ) × List (Option ℚ)))
    (t0 : List (String × ColumnTests)) (a0 : List String) :
    cols.foldl (driftFoldStep cfg pv lg) (t0, a0) =
      (t0 ++ cols.filterMap (fun col =>
          (runTestsForColumn cfg pv lg col.2.1 col.2.2).map (fun r => (col.1, r.1))),
       a0 ++ (cols.filter (fun col =>
          match runTestsForColumn cfg pv lg col.2.1 col.2.2 with
          | some r => decide (cfg.alertThreshold ≤ r.2)
          | none => false)).map Prod.fst) := by
  induction cols generalizing t0 a0 with
  | nil => simp
  | cons c cs ih =>
    simp only [List.foldl_cons, List.filterMap_cons, List.filter_cons]
    cases hr : runTestsForColumn cfg pv lg c.2.1 c.2.2 with
    | none =>
      have hstep : driftFoldStep cfg pv lg (t0, a0) c = (t0, a0) := by
        unfold driftFoldStep
        rw [hr]
      rw [hstep, ih]
      simp [hr]
    | some r =>
      have hstep : driftFoldStep cfg pv lg (t0, a0) c =
          (t0 ++ [(c.1, r.1)],
           if cfg.alertThreshold ≤ r.2 then a0 ++ [c.1] else a0) := by
        unfold driftFoldStep
        rw [hr]
      rw [hstep, ih]
      by_cases hth : cfg.alertThreshold ≤ r.2
      · simp [hr, hth]
      · simp [hr, hth]

theorem driftTests_keys_closed_form (cfg : DriftConfig) (pv : List ℚ → List ℚ → ℚ)
    (lg : ℚ → ℚ) (cols : List (String × List (Option ℚ) × List (Option ℚ))) :
    (cols.filterMap (fun col =>
        (runTestsForColumn cfg pv lg col.2.1 col.2.2).map
          (fun r => (col.1, r.1)))).map Prod.fst =
      (cols.filter (fun col => eligibleColumn cfg col.2.1 col.2.2)).map Prod.fst := by
  induction cols with
  | nil => rfl
  | cons c cs ih =>
    simp only [List.filterMap_cons, List.filter_cons]
    have hiff := runTestsForColumn_isSome_iff cfg pv lg c.2.1 c.2.2
    cases hr : runTestsForColumn cfg pv lg c.2.1 c.2.2 with
    | none =>
      have he : eligibleColumn cfg c.2.1 c.2.2 = false := by
        rw [← hiff, hr]
        rfl
      simp [he, ih]
    | some r =>
      have he : eligibleColumn cfg c.2.1 c.2.2 = true := by
        rw [← hiff, hr]
        rfl
      simp [he, ih]

/-- C3, counterexample.  Two numeric columns, thresholds
(mean 0.10, median 0.10, variance 0.20, KS p 0.05, PSI (0.10, 0.25),
2 bins, `min_samples = 2`, `alert_threshold = 2`); column `a`
(baseline `[1,1]`, current `[10,10]`) is eligible and alerts via its mean
and median shifts; column `b` (baseline `[5, missing]`) has fewer than
`min_samples` baseline values and is skipped.  `drift_tests` has exactly
the key `a` and `alerts = [a]` as the claim says — but `drift_score` is
`1/2` (alerted / ALL numeric columns), not `1/1` (alerted / eligible
columns) as the claim requires.  The stand-ins for scipy's p-value
(constantly 1) and numpy's log (`r ↦ r − 1`) do not affect the alert,
which fires on the exact mean and median tests alone. -/
theorem C3_counterexample :
    (runInputDrift ⟨1/10, 1/10, 1/5, 1/20, 1/10, 1/4, 2, 2, 2⟩ (fun _ _ => 1)
        (fun r => r - 1)
        [("a", [some 1, some 1], [some 10, some 10]),
         ("b", [some 5, none], [some 5, some 5])]).driftScore = 1/2 ∧
    (runInputDrift ⟨1/10, 1/10, 1/5, 1/20, 1/10, 1/4, 2, 2, 2⟩ (fun _ _ => 1)
        (fun r => r - 1)
        [("a", [some 1, some 1], [some 10, some 10]),
         ("b", [some 5, none], [some 5, some 5])]).alerts = ["a"] ∧
    (runInputDrift ⟨1/10, 1/10, 1/5, 1/20, 1/10, 1/4, 2, 2, 2⟩ (fun _ _ => 1)
        (fun r => r - 1)
        [("a", [some 1, some 1], [some 10, some 10]),
         ("b", [some 5, none], [some 5, some 5])]).driftTests.map Prod.fst = ["a"] ∧
    eligibleColumn ⟨1/10, 1/10, 1/5, 1/20, 1/10, 1/4, 2, 2, 2⟩ [some 5, none]
        [some 5, some 5] = false ∧
    ((1 : ℚ)/2) ≠ 1 := by
  refine ⟨by decide, by decide, by decide, by decide, by norm_num⟩

/-- C3, amended.  For every configuration, p-value function, logarithm and
column list: `drift_score` equals the number of alerted columns divided by
the number of ALL numeric columns (not just the eligible ones);
`drift_tests` holds exactly the eligible columns (those with at least
`min_samples` non-missing values on both sides), in order; every alerted
column is a `drift_tests` key; and `overall_drift` holds iff some column
alerted. -/
theorem C3_drift_score_amended (cfg : DriftConfig) (pv : List ℚ → List ℚ → ℚ)
    (lg : ℚ → ℚ) (cols : List (String × List (Option ℚ) × List (Option ℚ)))
    (hne : cols ≠ []) :
    (runInputDrift cfg pv lg cols).driftScore =
      ((runInputDrift cfg pv lg cols).alerts.length : ℚ) / (cols.length : ℚ) ∧
    (runInputDrift cfg pv lg cols).driftTests.map Prod.fst =
      (cols.filter (fun col => eligibleColumn cfg col.2.1 col.2.2)).map Prod.fst ∧
    (∀ a ∈ (runInputDrift cfg pv lg cols).alerts,
      a ∈ (runInputDrift cfg pv lg cols).driftTests.map Prod.fst) ∧
    ((runInputDrift cfg pv lg cols).overallDrift = true ↔
      (runInputDrift cfg pv lg cols).alerts ≠ []) := by
  have hfold := driftFold_closed_form cfg pv lg cols [] []
  have htests : (runInputDrift cfg pv lg cols).driftTests =
      cols.filterMap (fun col =>
        (runTestsForColumn cfg pv lg col.2.1 col.2.2).map (fun r => (col.1, r.1))) := by
    unfold runInputDrift
    rw [hfold]
    simp
  have halerts : (runInputDrift cfg pv lg cols).alerts =
      (cols.filter (fun col =>
        match runTestsForColumn cfg pv lg col.2.1 col.2.2 with
        | some r => decide (cfg.alertThreshold ≤ r.2)
        | none => false)).map Prod.fst := by
    unfold runInputDrift
    rw [hfold]
    simp
  refine ⟨?_, ?_, ?_, ?_⟩
  · have hlen : cols.length ≠ 0 := fun h => hne (List.length_eq_zero.mp h)
    unfold runInputDrift
    rw [hfold]
    simp [hlen]
  · rw [htests]
    exact driftTests_keys_closed_form cfg pv lg cols
  · intro a ha
    rw [halerts] at ha
    rw [htests]
    obtain ⟨col, hcolmem, hcolfst⟩ := List.mem_map.mp ha
    have hcolfilter := List.mem_filter.mp hcolmem
    cases hr : runTestsForColumn cfg pv lg col.2.1 col.2.2 with
    | none =>
      exfalso
      have := hcolfilter.2
      rw [hr] at this
      simp at this
    | some r =>
      refine List.mem_map.mpr ⟨(col.1, r.1), ?_, hcolfst⟩
      exact List.mem_filterMap.mpr ⟨col, hcolfilter.1, by rw [hr]; rfl⟩
  · unfold runInputDrift
    rw [hfold]
    simp [List.isEmpty_iff]

/-- C3, witness: the amended equalities evaluated on the two-column
example (score `1/2`, tests keyed by the eligible column `a` only, alert
list `[a]`, overall drift on). -/
theorem C3_drift_score_amended_witness :
    (runInputDrift ⟨1/10, 1/10, 1/5, 1/20, 1/10, 1/4, 2, 2, 2⟩ (fun _ _ => 1)
        (fun r => r - 1)
        [("a", [some 1, some 1], [some 10, some 10]),
         ("b", [some 5, none], [some 5, some 5])]).driftScore =
      ((runInputDrift ⟨1/10, 1/10, 1/5, 1/20, 1/10, 1/4, 2, 2, 2⟩ (fun _ _ => 1)
        (fun r => r - 1)
        [("a", [some 1, some 1], [some 10, some 10]),
         ("b", [some 5, none], [some 5, some 5])]).alerts.length : ℚ) / 2 := by
  have h := (C3_drift_score_amended ⟨1/10, 1/10, 1/5, 1/20, 1/10, 1/4, 2, 2, 2⟩
    (fun _ _ => 1) (fun r => r - 1)
    [("a", [some 1, some 1], [some 10, some 10]),
     ("b", [some 5, none], [some 5, some 5])] (by decide)).1
  simpa using h

/-! ## Prediction output drift monitor

`app/services/prediction_monitoring/prediction_drift.py`
(`PredictionOutputMonitor`).  Predictions are a single `pred` column,
modelled as `List (Option ℚ)`. -/

/-- The constructor defaults of `PredictionOutputMonitor`: quantiles
(0.25, 0.5, 0.75, 0.95), mean/median 0.10, variance 0.20, KS statistic
threshold 0.10, 10 PSI bins, PSI tiers (0.10, 0.25), 50 minimum
samples. -/
structure PredConfig where
  quantiles : List ℚ
  meanThreshold : ℚ
  medianThreshold : ℚ
  varianceThreshold : ℚ
  ksThreshold : ℚ
  psiBins : Nat
  psiLow : ℚ
  psiHigh : ℚ
  minSamples : Nat
deriving DecidableEq

/-- The defaults of `PredictionOutputMonitor.__init__`. -/
def defaultPredConfig : PredConfig :=
  ⟨[1/4, 1/2, 3/4, 19/20], 1/10, 1/10, 1/5, 1/10, 10, 1/10, 1/4, 50⟩

/-- The `ks_test` entry of the prediction monitor: statistic and p-value
(both `None` on the classification integer-encoding `except` path) and the
drift flag compared against the raw-statistic threshold. -/
structure PredKSEntry where
  ksStat : Option ℚ
  pValue : Option ℚ
  drift : Bool
deriving DecidableEq

/-- The `self.results` dictionary of `PredictionOutputMonitor`
(initialised to all-`None`/empty). -/
structure PredResults where
  meanDrift : Option ℚ
  medianDrift : Option ℚ
  varianceDrift : Option ℚ
  quantileDrift : Option (List (ℚ × ℚ))
  ksTest : Option PredKSEntry
  psi : Option (ℚ × String)
  classRatioDrift : Option (List (ℚ × ℚ))
  alerts : List String
  overallDrift : Bool
deriving DecidableEq

/-- The initial `self.results` value set in `__init__`. -/
def predInitResults : PredResults :=
  ⟨none, none, none, none, none, none, none, [], false⟩

/-- PSI severity tiers as assigned in `monitor_regression` /
`monitor_classification` (`low` below the first threshold, `medium` below
the second, else `high`). -/
def psiSeverity (psiLow psiHigh psi : ℚ) : String :=
  if psi < psiLow then "low" else if psi < psiHigh then "medium" else "high"

/-- `PredictionOutputMonitor.monitor_regression`: below `min_samples` the
results are returned untouched; otherwise mean/median/variance and
quantile relative changes are stored only when they exceed their
thresholds (`dict.update` overwrites only the keys the local results dict
holds), the KS test stores `{statistic, p_value, drift: stat >
ks_threshold}`, PSI always stores its value and tier, and
`regression_output_drift` is alerted when at least two of
{mean, median, variance, PSI high, KS drift} fired.  `pv` stands for the
scipy p-value; `lg` for `numpy.log`. -/
def monitorRegression (cfg : PredConfig) (pv : List ℚ → List ℚ → ℚ) (lg : ℚ → ℚ)
    (baseline current : List (Option ℚ)) (res : PredResults) : PredResults :=
  let base := dropna baseline
  let curr := dropna current
  if base.length < cfg.minSamples ∨ curr.length < cfg.minSamples then res
  else
    let meanD : Option ℚ := match relativeChangePred (seriesMean curr) (seriesMean base) with
      | some rc => if cfg.meanThreshold < rc then some rc else none
      | none => none
    let medD : Option ℚ := match relativeChangePred (seriesMedian curr) (seriesMedian base) with
      | some rc => if cfg.medianThreshold < rc then some rc else none
      | none => none
    let varD : Option ℚ := match seriesVar0 base, seriesVar0 curr with
      | some bv, some cv =>
        match relativeChangePred cv bv with
        | some rc => if cfg.varianceThreshold < rc then some rc else none
        | none => none
      | _, _ => none
    let qd := cfg.quantiles.filterMap (fun q =>
      match relativeChangePred (quantileAt curr q) (quantileAt base q) with
      | some rc => if cfg.varianceThreshold < rc then some (q, rc) else none
      | none => none)
    let stat := ksStatistic base curr
    let ks : PredKSEntry := ⟨some stat, some (pv base curr), decide (cfg.ksThreshold < stat)⟩
    let psiVal := computePsi lg cfg.psiBins base curr
    let sev := psiSeverity cfg.psiLow cfg.psiHigh psiVal
    let signals : Nat :=
      (if meanD.isSome then 1 else 0) + (if medD.isSome then 1 else 0) +
      (if varD.isSome then 1 else 0) + (if sev = "high" then 1 else 0) +
      (if ks.drift then 1 else 0)
    { res with
      meanDrift := match meanD with | some v => some v | none => res.meanDrift
      medianDrift := match medD with | some v => some v | none => res.medianDrift
      varianceDrift := match varD with | some v => some v | none => res.varianceDrift
      quantileDrift := if qd.isEmpty then res.quantileDrift else some qd
      ksTest := some ks
      psi := some (psiVal, sev)
      alerts := if 2 ≤ signals then res.alerts ++ ["regression_output_drift"] else res.alerts }

/-- Normalised class frequency `value_counts(normalize=True)[cl]`
(0 when the class is absent, as with `curr_counts.get(cls, 0)`). -/
def valueFreq (cl : ℚ) (xs : List ℚ) : ℚ :=
  ((xs.filter (fun x => decide (x = cl))).length : ℚ) / (xs.length : ℚ)

/-- The distinct values of a list in first-appearance order, standing for
the index of `value_counts` (whose frequency-sorted iteration order only
permutes the per-class dictionary and is abstracted here). -/
def distinctVals (xs : List ℚ) : List ℚ :=
  xs.foldl (fun acc x => if x ∈ acc then acc else acc ++ [x]) []

/-- Python `int(q)` / pandas `astype(int)` on a numeric value: truncation
toward zero. -/
def ratTrunc (q : ℚ) : ℤ :=
  if 0 ≤ q then q.floor else q.ceil

/-- `PredictionOutputMonitor.monitor_classification`: below `min_samples`
the results are returned untouched; otherwise each baseline class whose
normalised frequency changed relatively by more than `mean_threshold` is
recorded in `class_ratio_drift`; the KS test runs on the integer-encoded
labels against the raw-statistic threshold (in this numeric embedding the
`astype(int)` encoding always succeeds, so the `except` branch that stores
`{None, None, False}` is unreachable); PSI runs over the per-row mapped
class probabilities; and `classification_output_drift` is alerted when at
least two of {class-ratio drift, PSI high, KS drift} fired. -/
def monitorClassification (cfg : PredConfig) (pv : List ℚ → List ℚ → ℚ) (lg : ℚ → ℚ)
    (baseline current : List (Option ℚ)) (res : PredResults) : PredResults :=
  let base := dropna baseline
  let curr := dropna current
  if base.length < cfg.minSamples ∨ curr.length < cfg.minSamples then res
  else
    let classDrift := (distinctVals base).filterMap (fun cl =>
      match relativeChangePred (valueFreq cl curr) (valueFreq cl base) with
      | some rc => if cfg.meanThreshold < rc then some (cl, rc) else none
      | none => none)
    let baseInt := base.map (fun x => ((ratTrunc x : ℤ) : ℚ))
    let currInt := curr.map (fun x => ((ratTrunc x : ℤ) : ℚ))
    let stat := ksStatistic baseInt currInt
    let ks : PredKSEntry := ⟨some stat, some (pv baseInt currInt), decide (cfg.ksThreshold < stat)⟩
    let psiVal := computePsi lg cfg.psiBins
      (base.map (fun x => valueFreq x base)) (curr.map (fun x => valueFreq x curr))
    let sev := psiSeverity cfg.psiLow cfg.psiHigh psiVal
    let signals : Nat :=
      (if classDrift.isEmpty then 0 else 1) + (if sev = "high" then 1 else 0) +
      (if ks.drift then 1 else 0)
    { res with
      classRatioDrift := if classDrift.isEmpty then res.classRatioDrift else some classDrift
      ksTest := some ks
      psi := some (psiVal, sev)
      alerts := if 2 ≤ signals then res.alerts ++ ["classification_output_drift"] else res.alerts }

/-- `PredictionOutputMonitor.monitor`: dispatches on `task_type`,
raising `ValueError` (the `some` error component, with `self.results`
returned untouched) for any other value, and otherwise setting
`overall_drift = len(alerts) > 0` on the monitored results. -/
def predMonitorRun (cfg : PredConfig) (pv : List ℚ → List ℚ → ℚ) (lg : ℚ → ℚ)
    (task : String) (baseline current : List (Option ℚ)) (res : PredResults) :
    PredResults × Option String :=
  if task = "regression" then
    let r := monitorRegression cfg pv lg baseline current res
    ({ r with overallDrift := !r.alerts.isEmpty }, none)
  else if task = "classification" then
    let r := monitorClassification cfg pv lg baseline current res
    ({ r with overallDrift := !r.alerts.isEmpty }, none)
  else (res, some "task_type must be regression or classification")

/-- C4.  The two KS paths use asymmetric decision rules: for every
eligible feature column the recorded `drift_detected` holds iff the
p-value is strictly below `ks_pvalue_threshold`, while for every eligible
prediction batch (regression and classification alike) the recorded
`drift` flag holds iff the raw KS statistic strictly exceeds
`ks_threshold` — both forms as-is. -/
theorem C4_ks_decision_rules (cfg : DriftConfig) (pcfg : PredConfig)
    (pv : List ℚ → List ℚ → ℚ) (lg : ℚ → ℚ)
    (base curr baseP currP baseC currC : List (Option ℚ)) (res res' : PredResults) :
    (∀ (t : ColumnTests) (k : Nat), runTestsForColumn cfg pv lg base curr = some (t, k) →
      ∀ e : KSEntry, t.ksTest = some e →
        (e.driftDetected = true ↔ e.pValue < cfg.ksPvalueThreshold)) ∧
    (pcfg.minSamples ≤ (dropna baseP).length → pcfg.minSamples ≤ (dropna currP).length →
      ∃ e : PredKSEntry,
        (monitorRegression pcfg pv lg baseP currP res).ksTest = some e ∧
        e.ksStat = some (ksStatistic (dropna baseP) (dropna currP)) ∧
        (e.drift = true ↔ pcfg.ksThreshold < ksStatistic (dropna baseP) (dropna currP))) ∧
    (pcfg.minSamples ≤ (dropna baseC).length → pcfg.minSamples ≤ (dropna currC).length →
      ∃ e : PredKSEntry,
        (monitorClassification pcfg pv lg baseC currC res').ksTest = some e ∧
        e.ksStat = some (ksStatistic
          ((dropna baseC).map (fun x => ((ratTrunc x : ℤ) : ℚ)))
          ((dropna currC).map (fun x => ((ratTrunc x : ℤ) : ℚ)))) ∧
        (e.drift = true ↔ pcfg.ksThreshold < ksStatistic
          ((dropna baseC).map (fun x => ((ratTrunc x : ℤ) : ℚ)))
          ((dropna currC).map (fun x => ((ratTrunc x : ℤ) : ℚ))))) := by
  refine ⟨?_, ?_, ?_⟩
  · intro t k h e he
    unfold runTestsForColumn at h
    by_cases hg : (dropna base).length < cfg.minSamples ∨ (dropna curr).length < cfg.minSamples
    · simp [hg] at h
    · simp only [hg, if_false, Option.some.injEq, Prod.mk.injEq] at h
      obtain ⟨ht, -⟩ := h
      rw [← ht] at he
      simp only [Option.some.injEq] at he
      rw [← he]
      simp
  · intro hb hc
    unfold monitorRegression
    have hg : ¬((dropna baseP).length < pcfg.minSamples ∨
        (dropna currP).length < pcfg.minSamples) := by omega
    simp only [hg, if_false]
    exact ⟨_, rfl, rfl, by simp⟩
  · intro hb hc
    unfold monitorClassification
    have hg : ¬((dropna baseC).length < pcfg.minSamples ∨
        (dropna currC).length < pcfg.minSamples) := by omega
    simp only [hg, if_false]
    exact ⟨_, rfl, rfl, by simp⟩

/-- C4, witness: the feature-path rule evaluated on the concrete eligible
column baseline `[1]`, current `[2]` with `min_samples = 1`, a constant
p-value stand-in of 1 and KS p-value threshold `1/20`: the recorded entry
has `drift_detected = false` and indeed `1 < 1/20` fails. -/
theorem C4_ks_decision_rules_witness :
    (KSEntry.mk 1 1 (1/20) false).driftDetected = true ↔
      (KSEntry.mk 1 1 (1/20) false).pValue < (⟨1/10, 1/10, 1/5, 1/20, 1/10, 1/4, 2, 1, 2⟩ :
        DriftConfig).ksPvalueThreshold :=
  (C4_ks_decision_rules ⟨1/10, 1/10, 1/5, 1/20, 1/10, 1/4, 2, 1, 2⟩ defaultPredConfig
    (fun _ _ => 1) (fun r => r - 1) [some 1] [some 2] [] [] [] [] predInitResults
    predInitResults).1
    ⟨some ⟨1, 1/10, true⟩, some ⟨1, 1/10, true⟩, none, some ⟨1, 1, 1/20, false⟩,
      some (0, "low")⟩ 2 (by decide) ⟨1, 1, 1/20, false⟩ rfl

/-- C7.  The PSI of the battery — baseline-quantile breakpoints with
`±inf` outer edges, normalised histograms, every bucket proportion floored
at `1e-6`, then `Σ (base_p − curr_p)·log(base_p/curr_p)` — is nonnegative,
for any logarithm with the sign behaviour of `ln` (`lg r ≥ 0` for
`r ≥ 1`, `lg r ≤ 0` for `0 < r ≤ 1`); both the prediction variant
(`_compute_psi` returning the bare value) and the feature variant
(returning value and severity) are covered. -/
theorem C7_psi_nonneg (lg : ℚ → ℚ)
    (hpos : ∀ r : ℚ, 1 ≤ r → 0 ≤ lg r) (hneg : ∀ r : ℚ, r ≤ 1 → lg r ≤ 0)
    (bins : Nat) (psiLow psiHigh : ℚ) (base curr : List ℚ)
    (baseF currF : List (Option ℚ)) (psi : ℚ) (sev : String) :
    0 ≤ computePsi lg bins base curr ∧
    (computePsiFeature lg bins psiLow psiHigh baseF currF = some (psi, sev) → 0 ≤ psi) := by
  have hmain : ∀ (b c : List ℚ), 0 ≤ computePsi lg bins b c := by
    intro b c
    unfold computePsi psiValue
    apply List.sum_nonneg
    intro x hx
    obtain ⟨p, hp, rfl⟩ := List.mem_map.mp hx
    have hpos2 : 0 < p.1 ∧ 0 < p.2 := by
      unfold psiProportions at hp
      obtain ⟨q, -, rfl⟩ := List.mem_map.mp hp
      constructor
      · calc (0:ℚ) < 1/1000000 := by norm_num
          _ ≤ max (1/1000000) _ := le_max_left _ _
      · calc (0:ℚ) < 1/1000000 := by norm_num
          _ ≤ max (1/1000000) _ := le_max_left _ _
    rcases le_total p.2 p.1 with hle | hle
    · apply mul_nonneg (by linarith)
      apply hpos
      rw [le_div_iff₀ hpos2.2]
      linarith
    · have h2 : lg (p.1 / p.2) ≤ 0 := by
        apply hneg
        rw [div_le_one hpos2.2]
        linarith
      nlinarith
  refine ⟨hmain base curr, ?_⟩
  intro h
  simp only [computePsiFeature] at h
  split at h
  · exact absurd h (by simp)
  · simp only [Option.some.injEq, Prod.mk.injEq] at h
    rw [← h.1]
    exact hmain _ _

/-- C7, witness: nonnegativity at the concrete logarithm stand-in
`r ↦ r − 1` (which has the required sign behaviour) on the columns
`[1,2,3,4]` versus `[10,20,30,40]` with 2 bins. -/
theorem C7_psi_nonneg_witness :
    (0:ℚ) ≤ computePsi (fun r => r - 1) 2 [1, 2, 3, 4] [10, 20, 30, 40] :=
  (C7_psi_nonneg (fun r => r - 1) (fun r hr => by simp; linarith)
    (fun r hr => by simp; linarith) 2 (1/10) (1/4) [1, 2, 3, 4] [10, 20, 30, 40]
    [] [] 0 "low").1

/-- C8.  The relative-change helpers return `None` (so the test is
skipped) exactly when the baseline value is 0 — including, for the feature
variant, when either input is missing — and return
`|curr − base| / |base|` otherwise; both are total functions, the
embedding form of "never raises". -/
theorem C8_relative_change_guard (c b : ℚ) (co bo : Option ℚ) :
    (relativeChangePred c b = none ↔ b = 0) ∧
    (b ≠ 0 → relativeChangePred c b = some (|c - b| / |b|)) ∧
    (relativeChange co bo = none ↔ (co = none ∨ bo = none ∨ bo = some 0)) ∧
    (∀ x y : ℚ, co = some x → bo = some y → y ≠ 0 →
      relativeChange co bo = some (|x - y| / |y|)) := by
  refine ⟨?_, ?_, ?_, ?_⟩
  · unfold relativeChangePred
    by_cases hb : b = 0 <;> simp [hb]
  · intro hb
    unfold relativeChangePred
    simp [hb]
  · unfold relativeChange
    cases co with
    | none => simp
    | some x =>
      cases bo with
      | none => simp
      | some y => by_cases hy : y = 0 <;> simp [hy]
  · rintro x y rfl rfl hy
    unfold relativeChange
    simp [hy]

/-- C8, witness: the nonzero-baseline branch at `curr = 3`, `base = 2`
(`|3 − 2| / |2| = 1/2`). -/
theorem C8_relative_change_guard_witness :
    relativeChangePred 3 2 = some (1/2) := by
  have h := (C8_relative_change_guard 3 2 (some 3) (some 2)).2.1 (by norm_num)
  have he : |(3:ℚ) - 2| / |(2:ℚ)| = 1/2 := by norm_num
  rw [he] at h
  exact h

/-- C9.  `PredictionOutputMonitor.monitor` raises `ValueError` — leaving
`self.results` untouched — for every `task_type` other than `regression`
and `classification`, never raises for that reason on exactly those two
values, and on success sets `overall_drift` true iff the alerts list is
non-empty. -/
theorem C9_monitor_task_guard (cfg : PredConfig) (pv : List ℚ → List ℚ → ℚ) (lg : ℚ → ℚ)
    (task : String) (baseline current : List (Option ℚ)) (res : PredResults) :
    (task ≠ "regression" → task ≠ "classification" →
      predMonitorRun cfg pv lg task baseline current res =
        (res, some "task_type must be regression or classification")) ∧
    ((task = "regression" ∨ task = "classification") →
      (predMonitorRun cfg pv lg task baseline current res).2 = none) ∧
    ((predMonitorRun cfg pv lg task baseline current res).2 = none →
      ((predMonitorRun cfg pv lg task baseline current res).1.overallDrift = true ↔
        (predMonitorRun cfg pv lg task baseline current res).1.alerts ≠ [])) := by
  unfold predMonitorRun
  by_cases h1 : task = "regression"
  · simp [h1, List.isEmpty_iff]
  · by_cases h2 : task = "classification"
    · simp [h1, h2, List.isEmpty_iff]
    · simp [h1, h2]

/-- C9, witness: the `ValueError` branch at the concrete invalid task
type `other` (results returned untouched), via the theorem. -/
theorem C9_monitor_task_guard_witness :
    predMonitorRun defaultPredConfig (fun _ _ => 1) (fun r => r - 1) "other" [] []
      predInitResults =
      (predInitResults, some "task_type must be regression or classification") :=
  (C9_monitor_task_guard defaultPredConfig (fun _ _ => 1) (fun r => r - 1) "other" [] []
    predInitResults).1 (by decide) (by decide)

/-! ## Model-based drift detector

`app/services/model_based_data_drift.py` (`ModelBasedDriftMonitor`).
Rows are the numeric-column projections of the baseline/current frames
(`List (Option ℚ)` per row).  sklearn's `train_test_split` and the
`RandomForestClassifier` fit/predict are external to the repository and
enter as function parameters; the repository's own logic — labelling,
concatenation, NaN filling, the accuracy score and the alert rule — is
embedded exactly. -/

/-- One labelled training row (`__source__` column: baseline 0,
current 1). -/
structure LabeledRow where
  features : List ℚ
  label : Nat
deriving DecidableEq

/-- `ModelBasedDriftMonitor._build_training_data` up to the split call:
label baseline rows 0 and current rows 1, concatenate, and fill missing
numeric values with 0 (`df.fillna(0)`). -/
def buildTrainingData (baseline current : List (List (Option ℚ))) : List LabeledRow :=
  (baseline.map (fun r => LabeledRow.mk (r.map (fun v => v.getD 0)) 0)) ++
  (current.map (fun r => LabeledRow.mk (r.map (fun v => v.getD 0)) 1))

/-- `sklearn.metrics.accuracy_score`: fraction of positions where
prediction equals truth. -/
def accuracyScore (yTrue yPred : List Nat) : ℚ :=
  if yTrue.length = 0 then 0
  else (((yTrue.zip yPred).filter (fun p => decide (p.1 = p.2))).length : ℚ) /
    (yTrue.length : ℚ)

/-- The constants of `app/constants.py` backing the detector. -/
def MODEL_BASED_DRIFT_THRESHOLD : ℚ := 1/2

/-- `MODEL_RF_N_ESTIMATORS = 200`. -/
def MODEL_RF_N_ESTIMATORS : Nat := 200

/-- `MODEL_RF_RANDOM_STATE = 42` (the fixed seed passed to both the
classifier and `train_test_split`). -/
def MODEL_RF_RANDOM_STATE : Nat := 42

/-- `MODEL_RF_TEST_SIZE = 0.2` (also the `test_size` constructor
default). -/
def MODEL_RF_TEST_SIZE : ℚ := 1/5

/-- The `results` dictionary of `ModelBasedDriftMonitor.detect_drift`. -/
structure ModelDriftReport where
  driftScore : ℚ
  alert : Bool
  alertThreshold : ℚ
  baselineSamples : Nat
  currentSamples : Nat
  testAccuracy : ℚ
deriving DecidableEq

/-- `ModelBasedDriftMonitor.detect_drift`: build the labelled data, split
it (`split testSize seed data`, standing for
`train_test_split(X, y, test_size, random_state, stratify=y)` and
returning the train and held-out test rows), let the classifier
(`predict`, standing for `RandomForestClassifier(200, 42).fit` +
`.predict`) label the held-out features, score the accuracy, and alert iff
`accuracy ≥ alert_threshold`. -/
def detectDrift
    (split : ℚ → Nat → List LabeledRow → List LabeledRow × List LabeledRow)
    (predict : List LabeledRow → List (List ℚ) → List Nat)
    (testSize : ℚ) (seed : Nat) (alertThreshold : ℚ)
    (baseline current : List (List (Option ℚ))) : ModelDriftReport :=
  let data := buildTrainingData baseline current
  let tt := split testSize seed data
  let yPred := predict tt.1 (tt.2.map LabeledRow.features)
  let acc := accuracyScore (tt.2.map LabeledRow.label) yPred
  { driftScore := acc
    alert := decide (alertThreshold ≤ acc)
    alertThreshold := alertThreshold
    baselineSamples := baseline.length
    currentSamples := current.length
    testAccuracy := acc }

/-- C5.  The model-based detector labels baseline rows 0 and current rows
1, concatenates them, fills missing numeric values with 0, splits with
`test_size = 0.2` and the fixed seed 42 (stratified on the label inside
the sklearn split the arguments are handed to), and reports
`drift_score = held-out accuracy` with `alert ⟺ accuracy ≥
alert_threshold` (default 0.50). -/
theorem C5_model_based_drift
    (split : ℚ → Nat → List LabeledRow → List LabeledRow × List LabeledRow)
    (predict : List LabeledRow → List (List ℚ) → List Nat)
    (alertThreshold : ℚ) (baseline current : List (List (Option ℚ))) :
    (buildTrainingData baseline current).map LabeledRow.label =
        List.replicate baseline.length 0 ++ List.replicate current.length 1 ∧
    (buildTrainingData baseline current).map LabeledRow.features =
        (baseline ++ current).map (fun r => r.map (fun v => v.getD 0)) ∧
    MODEL_RF_TEST_SIZE = 1/5 ∧
    MODEL_RF_RANDOM_STATE = 42 ∧
    MODEL_RF_N_ESTIMATORS = 200 ∧
    MODEL_BASED_DRIFT_THRESHOLD = 1/2 ∧
    (detectDrift split predict MODEL_RF_TEST_SIZE MODEL_RF_RANDOM_STATE alertThreshold
        baseline current).driftScore =
      accuracyScore
        (((split MODEL_RF_TEST_SIZE MODEL_RF_RANDOM_STATE
            (buildTrainingData baseline current)).2).map LabeledRow.label)
        (predict (split MODEL_RF_TEST_SIZE MODEL_RF_RANDOM_STATE
            (buildTrainingData baseline current)).1
          (((split MODEL_RF_TEST_SIZE MODEL_RF_RANDOM_STATE
            (buildTrainingData baseline current)).2).map LabeledRow.features)) ∧
    ((detectDrift split predict MODEL_RF_TEST_SIZE MODEL_RF_RANDOM_STATE alertThreshold
        baseline current).alert = true ↔
      alertThreshold ≤ (detectDrift split predict MODEL_RF_TEST_SIZE MODEL_RF_RANDOM_STATE
        alertThreshold baseline current).driftScore) ∧
    (detectDrift split predict MODEL_RF_TEST_SIZE MODEL_RF_RANDOM_STATE alertThreshold
        baseline current).testAccuracy =
      (detectDrift split predict MODEL_RF_TEST_SIZE MODEL_RF_RANDOM_STATE alertThreshold
        baseline current).driftScore ∧
    (detectDrift split predict MODEL_RF_TEST_SIZE MODEL_RF_RANDOM_STATE alertThreshold
        baseline current).baselineSamples = baseline.length ∧
    (detectDrift split predict MODEL_RF_TEST_SIZE MODEL_RF_RANDOM_STATE alertThreshold
        baseline current).currentSamples = current.length := by
  refine ⟨?_, ?_, rfl, rfl, rfl, rfl, rfl, by simp [detectDrift], rfl, rfl, rfl⟩
  · unfold buildTrainingData
    rw [List.map_append, List.map_map, List.map_map]
    congr 1
    · induction baseline with
      | nil => rfl
      | cons r rs ih => simpa [List.replicate_succ] using ih
    · induction current with
      | nil => rfl
      | cons r rs ih => simpa [List.replicate_succ] using ih
  · unfold buildTrainingData
    rw [List.map_append, List.map_map, List.map_map, List.map_append]
    rfl

/-! ## LLM response drift detector

`app/services/llm_monitoring/llm_drift_detector.py` (`LLMDriftDetector`)
and the drift-trigger path of `llm_monitor_service.py`.  The database
tables involved become fields of `LLMDbState`. -/

/-- One `LLMMonitor` row (the fields the drift path reads/writes). -/
structure LLMRecord where
  rowId : Nat
  tokens : ℚ
  hasDrift : Bool
deriving DecidableEq

/-- The `LLMConfig` row fields the drift path reads. -/
structure LLMConfigRec where
  tokenDriftThreshold : ℚ
  monitorBatchSize : Nat
deriving DecidableEq

/-- The `LLMBaseline` row fields the drift path reads. -/
structure LLMBaselineRec where
  baselineStartRow : Nat
  baselineEndRow : Nat
  avgTokens : ℚ
deriving DecidableEq

/-- The `LLMMonitorInfo` row fields the drift path reads. -/
structure LLMMonitorInfoRec where
  monitorStartRow : Nat
  monitorEndRow : Nat
deriving DecidableEq

/-- The per-project database state visible to `detect_drift`. -/
structure LLMDbState where
  config : Option LLMConfigRec
  baseline : Option LLMBaselineRec
  monitorInfo : Option LLMMonitorInfoRec
  records : List LLMRecord
deriving DecidableEq

/-- `row_id.between(start, end)` on an `LLMMonitor` row. -/
def inWindow (startRow endRow : Nat) (r : LLMRecord) : Bool :=
  decide (startRow ≤ r.rowId ∧ r.rowId ≤ endRow)

/-- The `LLMMonitor` rows with `row_id` between the monitor bounds. -/
def monitorWindowRecords (records : List LLMRecord) (mi : LLMMonitorInfoRec) :
    List LLMRecord :=
  records.filter (inWindow mi.monitorStartRow mi.monitorEndRow)

/-- `LLMDriftDetector._calculate_monitor_avg`: `None` when no rows fall in
the window, else the average `response_token_length` (the write-back of
`current_avg_token_length` is a pure cache and does not feed the drift
decision). -/
def calculateMonitorAvg (records : List LLMRecord) (mi : LLMMonitorInfoRec) : Option ℚ :=
  let rs := monitorWindowRecords records mi
  if rs.isEmpty then none
  else some ((rs.map LLMRecord.tokens).sum / (rs.length : ℚ))

/-- The result dictionary of `detect_drift`, reduced to the fields the
claims are about: the `has_drift` flag, the `error` key of the failure
returns, and the unrounded `change_percentage` (the success dictionary
additionally carries the averages rounded to two decimals — display
only). -/
structure LLMDriftOutcome where
  hasDrift : Bool
  error : Option String
  changePercentage : Option ℚ
deriving DecidableEq

/-- `LLMDriftDetector.detect_drift`: each missing prerequisite returns
`has_drift: False` with an `error` key (an empty and a zero-average
monitor window share the `No monitor data` return); a zero baseline
average raises `ZeroDivisionError` inside the `try`, which the enclosing
`except` turns into the same `False`-plus-`error` shape; otherwise
`change = |baseline_avg − monitor_avg| / baseline_avg · 100` and
`has_drift = (change / 100) > token_drift_threshold`.  The function is
total: no state makes it propagate an exception. -/
def llmDetectDrift (db : LLMDbState) : LLMDriftOutcome :=
  match db.config with
  | none => ⟨false, some "No config found", none⟩
  | some cfg =>
    match db.baseline with
    | none => ⟨false, some "No baseline found", none⟩
    | some b =>
      match db.monitorInfo with
      | none => ⟨false, some "No monitor info found", none⟩
      | some mi =>
        match calculateMonitorAvg db.records mi with
        | none => ⟨false, some "No monitor data", none⟩
        | some mAvg =>
          if mAvg = 0 then ⟨false, some "No monitor data", none⟩
          else if b.avgTokens = 0 then ⟨false, some "division by zero", none⟩
          else
            let changePct := |b.avgTokens - mAvg| / b.avgTokens * 100
            ⟨decide (cfg.tokenDriftThreshold < changePct / 100), none, some changePct⟩

/-- `LLMMonitorService._mark_drift_records`: every `LLMMonitor` row whose
`row_id` lies in the window gets `has_drift = True`. -/
def markDriftRecords (records : List LLMRecord) (startRow endRow : Nat) :
    List LLMRecord :=
  records.map (fun r =>
    if startRow ≤ r.rowId ∧ r.rowId ≤ endRow then { r with hasDrift := true } else r)

/-- C6, counterexample.  A project with config
(`token_drift_threshold = 0.15`), baseline average 100 and a NON-EMPTY
monitor window `[5,6]` whose two interactions have token length 0: the
relative change `|100 − 0| / 100 = 1` exceeds the threshold, so the claim
requires `has_drift = true` — but the code's `monitor_avg == 0` guard
returns `has_drift: False` with the `No monitor data` error instead. -/
theorem C6_counterexample :
    llmDetectDrift
      ⟨some ⟨15/100, 2⟩, some ⟨1, 4, 100⟩, some ⟨5, 6⟩,
        [⟨5, 0, false⟩, ⟨6, 0, false⟩]⟩ =
      ⟨false, some "No monitor data", none⟩ ∧
    (15/100 : ℚ) < |(100 : ℚ) - 0| / 100 := by
  refine ⟨by decide, by norm_num⟩

/-- C6, amended.  With an existing config, baseline and a monitor window
whose average exists and is NONZERO (and a nonzero baseline average),
`has_drift` holds iff `|baseline_avg − monitor_avg| / baseline_avg`
exceeds `token_drift_threshold` (the `·100 / 100` round-trip is exact);
when drift fires, `_mark_drift_records` tags every row of the window as
drift-affected while leaving rows outside the window untouched, and the
monitor window then advances to the next non-overlapping batch
`[old_end + 1, old_end + monitor_batch_size]`.  A non-empty window whose
token lengths average to exactly 0 is reported as `No monitor data` with
no drift, whatever the baseline average. -/
theorem C6_llm_drift_amended (db : LLMDbState) (cfg : LLMConfigRec)
    (b : LLMBaselineRec) (mi : LLMMonitorInfoRec) (mAvg : ℚ)
    (hc : db.config = some cfg) (hb : db.baseline = some b)
    (hm : db.monitorInfo = some mi)
    (havg : calculateMonitorAvg db.records mi = some mAvg)
    (hnz : mAvg ≠ 0) (hbz : b.avgTokens ≠ 0)
    (records : List LLMRecord) (s : LLMWindowState) (ms me mSize : Nat)
    (hw : s.monitor = some (ms, me)) (hlatest : me ≤ s.latest) :
    ((llmDetectDrift db).hasDrift = true ↔
      cfg.tokenDriftThreshold < |b.avgTokens - mAvg| / b.avgTokens) ∧
    (∀ r ∈ markDriftRecords records mi.monitorStartRow mi.monitorEndRow,
      mi.monitorStartRow ≤ r.rowId → r.rowId ≤ mi.monitorEndRow →
        r.hasDrift = true) ∧
    ((markDriftRecords records mi.monitorStartRow mi.monitorEndRow).filter
        (fun r => !inWindow mi.monitorStartRow mi.monitorEndRow r) =
      records.filter (fun r => !inWindow mi.monitorStartRow mi.monitorEndRow r)) ∧
    (llmAdvanceMonitor mSize s).monitor = some (me + 1, me + mSize) := by
  refine ⟨?_, ?_, ?_, ?_⟩
  · unfold llmDetectDrift
    simp only [hc, hb, hm, havg]
    rw [if_neg hnz, if_neg hbz]
    have h100 : |b.avgTokens - mAvg| / b.avgTokens * 100 / 100 =
        |b.avgTokens - mAvg| / b.avgTokens := by
      field_simp
      ring
    simp only [decide_eq_true_eq]
    rw [h100]
  · intro r hr hs he
    unfold markDriftRecords at hr
    obtain ⟨orig, -, hi⟩ := List.mem_map.mp hr
    by_cases hin : mi.monitorStartRow ≤ orig.rowId ∧ orig.rowId ≤ mi.monitorEndRow
    · rw [if_pos hin] at hi
      rw [← hi]
    · rw [if_neg hin] at hi
      subst hi
      exact absurd ⟨hs, he⟩ hin
  · unfold markDriftRecords
    induction records with
    | nil => rfl
    | cons r rs ih =>
      simp only [List.map_cons]
      by_cases hin : mi.monitorStartRow ≤ r.rowId ∧ r.rowId ≤ mi.monitorEndRow
      · rw [if_pos hin]
        have h1 : inWindow mi.monitorStartRow mi.monitorEndRow
            ⟨r.rowId, r.tokens, true⟩ = true := by
          simp [inWindow]
          exact hin
        have h2 : inWindow mi.monitorStartRow mi.monitorEndRow r = true := by
          simp [inWindow]
          exact hin
        simp only [List.filter_cons, h1, h2, Bool.not_true, Bool.false_eq_true, if_false]
        exact ih
      · rw [if_neg hin]
        have h2 : inWindow mi.monitorStartRow mi.monitorEndRow r = false := by
          simp [inWindow]
          omega
        simp only [List.filter_cons, h2, Bool.not_false, if_true]
        rw [ih]
  · unfold llmAdvanceMonitor
    rw [hw]
    simp [hlatest]

/-- C6, witness: the amended behaviour at a concrete project — baseline
average 10, monitor window `[5,6]` holding token lengths 10 and 20
(average 15, nonzero), threshold 0.15, batch size 2; drift fires since
`|10 − 15| / 10 = 1/2 > 0.15`, and the window would advance from `[5,6]`
to `[7,8]`. -/
theorem C6_llm_drift_amended_witness :
    ((llmDetectDrift
        ⟨some ⟨15/100, 2⟩, some ⟨1, 4, 10⟩, some ⟨5, 6⟩,
          [⟨5, 10, false⟩, ⟨6, 20, false⟩]⟩).hasDrift = true ↔
      (15/100 : ℚ) < |(10 : ℚ) - 15| / 10) ∧
    (llmAdvanceMonitor 2 ⟨6, some (1, 4), some (5, 6)⟩).monitor = some (7, 8) := by
  have h := C6_llm_drift_amended
    ⟨some ⟨15/100, 2⟩, some ⟨1, 4, 10⟩, some ⟨5, 6⟩,
      [⟨5, 10, false⟩, ⟨6, 20, false⟩]⟩
    ⟨15/100, 2⟩ ⟨1, 4, 10⟩ ⟨5, 6⟩ 15 rfl rfl rfl (by decide) (by norm_num)
    (by norm_num) [] ⟨6, some (1, 4), some (5, 6)⟩ 5 6 2 rfl (by decide)
  exact ⟨h.1, h.2.2.2⟩

/-- C10.  `detect_drift` is total at its public interface: a missing
config, missing baseline, missing monitor info, an empty or zero-average
monitor window, or a zero baseline average (whose division the enclosing
`except` catches) all yield a dictionary with `has_drift: False` and an
`error` key — never a propagated exception. -/
theorem C10_llm_detect_total (db : LLMDbState)
    (h : db.config = none ∨ db.baseline = none ∨ db.monitorInfo = none ∨
      (∃ mi, db.monitorInfo = some mi ∧
        (calculateMonitorAvg db.records mi = none ∨
          calculateMonitorAvg db.records mi = some 0)) ∨
      (∃ b, db.baseline = some b ∧ b.avgTokens = 0)) :
    (llmDetectDrift db).hasDrift = false ∧ (llmDetectDrift db).error.isSome = true := by
  unfold llmDetectDrift
  cases hc : db.config with
  | none => exact ⟨rfl, rfl⟩
  | some cfg =>
    cases hb : db.baseline with
    | none => exact ⟨rfl, rfl⟩
    | some b =>
      cases hm : db.monitorInfo with
      | none => exact ⟨rfl, rfl⟩
      | some mi =>
        dsimp only
        cases havg : calculateMonitorAvg db.records mi with
        | none => exact ⟨rfl, rfl⟩
        | some mAvg =>
          by_cases hz : mAvg = 0
          · simp [hz]
          · simp only [hz, if_false]
            by_cases hbz : b.avgTokens = 0
            · simp [hbz]
            · exfalso
              rcases h with h | h | h | ⟨mi', hmi', h⟩ | ⟨b', hb', h⟩
              · rw [hc] at h
                exact absurd h (by simp)
              · rw [hb] at h
                exact absurd h (by simp)
              · rw [hm] at h
                exact absurd h (by simp)
              · rw [hm] at hmi'
                simp only [Option.some.injEq] at hmi'
                subst hmi'
                rw [havg] at h
                rcases h with h | h
                · exact absurd h (by simp)
                · simp only [Option.some.injEq] at h
                  exact hz h
              · rw [hb] at hb'
                simp only [Option.some.injEq] at hb'
                subst hb'
                exact hbz h

/-- C10, witness: the missing-config state (all tables absent). -/
theorem C10_llm_detect_total_witness :
    (llmDetectDrift ⟨none, none, none, []⟩).hasDrift = false ∧
    (llmDetectDrift ⟨none, none, none, []⟩).error.isSome = true :=
  C10_llm_detect_total ⟨none, none, none, []⟩ (Or.inl rfl)

end Watchtower
